import Mathlib

/-!
Shallow embedding of `src/core/Database.cpp` (KeePassXC core database
lifecycle: open/save persistence engine, key lifecycle, modification
tracker, file-block sentinel, process-wide UUID registry).

Byte arrays (`QByteArray`) are modelled as `List Nat`; Qt strings as
`String`.  External collaborators (Qt file I/O, `QCryptographicHash`,
`Random`, `CompositeKey::transform`, the KDBX codec) are modelled as
environment records whose outcomes are supplied as inputs, so every
definition stays executable.  Signals are collected into explicit lists.
-/

/-- Bytes of a `QByteArray`. An empty list models an empty (or null) array. -/
abbrev Bytes := List Nat

/-- A composite key handle: an identity tag plus its `isEmpty()` observation.
The actual key factors live outside this translation unit; `transform` is
supplied by the environment. -/
structure CompositeKey where
  keyId : Nat
  isEmpty : Bool
deriving DecidableEq, Repr

/-- The empty composite key created by `QSharedPointer<CompositeKey>::create()`. -/
def CompositeKey.emptyKey : CompositeKey := { keyId := 0, isEmpty := true }

/-- A KDF descriptor: identity of the parameter set plus its seed. -/
structure Kdf where
  kdfId : Nat
  seed : Bytes
deriving DecidableEq, Repr

/-- `DatabaseData`: the pure state bag owned by the database
(fields used by the claims under verification). -/
structure DatabaseData where
  filePath : String
  formatVersion : Nat
  key : Option CompositeKey
  kdf : Kdf
  transformedDatabaseKey : Bytes
  challengeResponseKey : Bytes
deriving DecidableEq, Repr

/-- Modelled from the spec: `DatabaseData::clear` is defined in the header
(`Database.h`, not part of this translation unit); it resets the state bag:
path unbound, version reset, keys and transformed key zeroed. -/
def DatabaseData.clear : DatabaseData :=
  { filePath := ""
    formatVersion := 0
    key := none
    kdf := { kdfId := 0, seed := [] }
    transformedDatabaseKey := []
    challengeResponseKey := [] }

/-- Modelled from the spec: `DatabaseData::resetKeys` (header, outside this
translation unit) zeroes all key-derived state. -/
def DatabaseData.resetKeys (d : DatabaseData) : DatabaseData :=
  { d with key := none, transformedDatabaseKey := [], challengeResponseKey := [] }

/-- The file watcher as observable from this translation unit:
either stopped or started on a path. -/
inductive Watcher
  | stopped
  | started (path : String)
deriving DecidableEq, Repr

/-- Qt signals emitted by `Database`, collected explicitly. -/
inductive Signal
  | databaseFileChanged (external : Bool)
  | databaseSaved
  | databaseDiscarded
  | databaseOpened
  | databaseNonDataChanged
  | filePathChanged (oldPath newPath : String)
deriving DecidableEq, Repr

/-- Error taxonomy: one constructor per distinct error site in the source. -/
inductive DbError
  | fileNotExist (path : String)
  | unableToOpen (path : String)
  | readError
  | readerError (msg : String)
  | unmergedChanges
  | busy
  | notInitialized
  | notValidFile
  | writerError (msg : String)
  | keyNotTransformed
  | saveFileError (msg : String)
  | tempFileError (msg : String) (backupLocation : String)
  | tempFilePlainError (msg : String)
  | dbFileError (msg : String)
deriving DecidableEq, Repr

/-- The user-visible message of each error, as produced by the `tr(...)`
calls in the source (`%N` placeholders substituted). -/
def DbError.message : DbError → String
  | .fileNotExist p => "File " ++ p ++ " does not exist."
  | .unableToOpen p => "Unable to open file " ++ p ++ "."
  | .readError => "Database file read error."
  | .readerError m => "Error while reading the database: " ++ m
  | .unmergedChanges => "Database file has unmerged changes."
  | .busy => "Database save is already in progress."
  | .notInitialized => "Could not save, database has not been initialized!"
  | .notValidFile => "Could not save, database does not point to a valid file."
  | .writerError m => m
  | .keyNotTransformed => "Key not transformed. This is a bug, please report it to the developers."
  | .saveFileError m => m
  | .tempFileError m loc => m ++ "\nBackup database located at " ++ loc
  | .tempFilePlainError m => m
  | .dbFileError m => m

/-- The mutable state of a `Database` object (the fields this translation
unit reads or writes, with their `m_` names from the source). -/
structure Database where
  m_data : DatabaseData
  m_uuid : Nat
  m_modified : Bool
  m_hasNonDataChange : Bool
  m_ignoreFileChangesUntilSaved : Bool
  m_fileBlockHash : Bytes
  m_modifiedTimerActive : Bool
  m_emitModified : Bool
  m_watcher : Watcher
  m_customData : List (String × Bytes)
  m_keyChangedTime : Option Nat
  m_keyError : String
  m_hasRootGroup : Bool
  m_saving : Bool
deriving DecidableEq, Repr

/-- State established by the `Database()` constructor: empty data bag, fresh
UUID, clean, timers off, signalling enabled, empty root group installed. -/
def Database.init (uuid : Nat) : Database :=
  { m_data :=
      { filePath := ""
        formatVersion := 0
        key := none
        kdf := { kdfId := 0, seed := [] }
        transformedDatabaseKey := []
        challengeResponseKey := [] }
    m_uuid := uuid
    m_modified := false
    m_hasNonDataChange := false
    m_ignoreFileChangesUntilSaved := false
    m_fileBlockHash := []
    m_modifiedTimerActive := false
    m_emitModified := true
    m_watcher := .stopped
    m_customData := []
    m_keyChangedTime := none
    m_keyError := ""
    m_hasRootGroup := true
    m_saving := false }

/-- Modelled from the spec together with the constructor connection in this
file: `setEmitModified` (header, outside this translation unit) stores the
flag, and the constructor connects `emitModifiedChanged(false)` to
`stopModifiedTimer`. -/
def Database.setEmitModified (s : Database) (v : Bool) : Database :=
  if v then { s with m_emitModified := true }
  else { s with m_emitModified := false, m_modifiedTimerActive := false }

/-- `Database::isInitialized`: key exists, has subkeys, and the root group
exists. -/
def Database.isInitialized (s : Database) : Bool :=
  (match s.m_data.key with
   | some k => !k.isEmpty
   | none => false) && s.m_hasRootGroup

/-- `Database::isSaving`: non-blocking probe of the save mutex. -/
def Database.isSaving (s : Database) : Bool := s.m_saving

/-- `Database::markAsModified`: set the flag and arm the 150 ms single-shot
debounce timer when signalling is enabled and the timer is not yet active. -/
def Database.markAsModified (s : Database) : Database :=
  let s := { s with m_modified := true }
  if s.m_emitModified && !s.m_modifiedTimerActive then
    { s with m_modifiedTimerActive := true }
  else s

/-- `Database::markAsClean`: clear the modified flag, stop the debounce
timer, clear the non-data-change flag, and emit `databaseSaved` iff the
modified flag was set. Returns the new state and the emitted signals. -/
def Database.markAsClean (s : Database) : Database × List Signal :=
  let emitSignal := s.m_modified
  ({ s with m_modified := false, m_modifiedTimerActive := false, m_hasNonDataChange := false },
   if emitSignal then [Signal.databaseSaved] else [])

/-- `Database::markNonDataChange`: set the flag and emit
`databaseNonDataChanged`; does not touch the timer or `m_modified`. -/
def Database.markNonDataChange (s : Database) : Database × List Signal :=
  ({ s with m_hasNonDataChange := true }, [Signal.databaseNonDataChanged])

/-- `Database::setFilePath`: when the path changes, rebind it, stop the file
watcher, clear `m_ignoreFileChangesUntilSaved` and emit `filePathChanged`. -/
def Database.setFilePath (s : Database) (filePath : String) : Database × List Signal :=
  if filePath ≠ s.m_data.filePath then
    let oldPath := s.m_data.filePath
    ({ s with m_data := { s.m_data with filePath := filePath }
              m_watcher := .stopped
              m_ignoreFileChangesUntilSaved := false },
     [Signal.filePathChanged oldPath filePath])
  else (s, [])

/-- The process-wide `s_uuidMap` registry, as an association list. -/
abbrev UuidMap := List (Nat × Nat)

/-- `QHash::remove` of a key. -/
def uuidMapRemove (m : UuidMap) (u : Nat) : UuidMap :=
  m.filter (fun p => !(p.1 == u))

/-- `Database::databaseByUuid`: `s_uuidMap.value(uuid, nullptr)`. -/
def databaseByUuid (m : UuidMap) (u : Nat) : Option Nat :=
  (m.find? (fun p => p.1 == u)).map (fun p => p.2)

/-- `Database::releaseData`: under the save mutex, emit `databaseDiscarded`
if dirty, stop signalling, clear the modified flag, deregister the UUID,
clear the data bag and metadata, install a fresh root group, stop the
watcher, and clear the sentinel state. -/
def Database.releaseData (m : UuidMap) (s : Database) : UuidMap × Database × List Signal :=
  let sigs := if s.m_modified then [Signal.databaseDiscarded] else []
  let s := s.setEmitModified false
  let s := { s with m_modified := false }
  let m := uuidMapRemove m s.m_uuid
  let s := { s with m_uuid := 0 }
  let s := { s with m_data := DatabaseData.clear }
  let s := { s with m_customData := [], m_keyChangedTime := none }
  let s := { s with m_hasRootGroup := true }
  let s := { s with m_watcher := .stopped }
  let s := { s with m_fileBlockHash := [], m_ignoreFileChangesUntilSaved := false }
  (m, s, sigs)

/-- Looking up a key just removed from the registry yields nothing. -/
theorem uuidMapRemove_lookup (m : UuidMap) (u : Nat) :
    databaseByUuid (uuidMapRemove m u) u = none := by
  induction m with
  | nil => rfl
  | cons p t ih =>
      by_cases h : p.1 = u
      · simpa [uuidMapRemove, databaseByUuid, h] using ih
      · simpa [uuidMapRemove, databaseByUuid, List.find?, h] using ih

/-- C8: `markAsClean` clears the modified flag, cancels the debounce timer,
clears `hasNonDataChange`, and emits `databaseSaved` iff the modified flag
was set immediately before the call. -/
theorem markAsClean_spec (s : Database) :
    (s.markAsClean.1.m_modified = false) ∧
    (s.markAsClean.1.m_modifiedTimerActive = false) ∧
    (s.markAsClean.1.m_hasNonDataChange = false) ∧
    (Signal.databaseSaved ∈ s.markAsClean.2 ↔ s.m_modified = true) := by
  refine ⟨rfl, rfl, rfl, ?_⟩
  cases h : s.m_modified <;> simp [Database.markAsClean, h]

/-- C9: after `releaseData`, the database's previous UUID is absent from the
registry, the modified flag is false, and the file-block hash and
`ignoreFileChangesUntilSaved` are cleared. -/
theorem releaseData_spec (m : UuidMap) (s : Database) :
    (databaseByUuid (Database.releaseData m s).1 s.m_uuid = none) ∧
    ((Database.releaseData m s).2.1.m_modified = false) ∧
    ((Database.releaseData m s).2.1.m_fileBlockHash = []) ∧
    ((Database.releaseData m s).2.1.m_ignoreFileChangesUntilSaved = false) := by
  refine ⟨?_, rfl, rfl, rfl⟩
  simpa [Database.releaseData, Database.setEmitModified] using uuidMapRemove_lookup m s.m_uuid

/-- Outcome of one `KeePass2Writer::writeDatabase` codec run: whether the
writer errored, its error string, and the transformed database key left in
`m_data` by the codec (the codec re-derives session material as a side
effect on the database). -/
structure CodecWriter where
  hasError : Bool
  errorString : String
  keyAfter : Bytes
deriving DecidableEq, Repr

/-- Result triple of a fallible database operation. -/
structure WriteResult where
  ok : Bool
  error : Option DbError
  state : Database
deriving DecidableEq, Repr

/-- `Database::writeDatabase`: capture the old transformed key (only when
the composite key is empty), run the codec with signalling suspended, then
check that the codec left a transformed key that is non-empty and differs
from the captured value; otherwise fail with the bug-report error. -/
def Database.writeDatabase (s : Database) (writer : CodecWriter) : WriteResult :=
  let oldTransformedKey : Bytes :=
    match s.m_data.key with
    | some k => if k.isEmpty then s.m_data.transformedDatabaseKey else []
    | none => []
  let s := s.setEmitModified false
  let s := { s with m_data := { s.m_data with transformedDatabaseKey := writer.keyAfter } }
  let s := s.setEmitModified true
  if writer.hasError then
    { ok := false, error := some (.writerError writer.errorString), state := s }
  else
    let newKey := s.m_data.transformedDatabaseKey
    if newKey = [] ∨ newKey = oldTransformedKey then
      { ok := false, error := some .keyNotTransformed, state := s }
    else
      { ok := true, error := none, state := s }

/-- A database state with a non-empty composite key and a cached transformed
key, as left behind by an open or a previous save. -/
def c1State : Database :=
  { Database.init 1 with
      m_data := { (Database.init 1).m_data with
                    key := some { keyId := 1, isEmpty := false }
                    transformedDatabaseKey := [1] } }

/-- C1 counterexample: on an initialized database (non-empty composite key)
a codec run that leaves the transformed key bit-identical to its pre-write
value still makes `writeDatabase` return success, because the pre-write
value is captured only when the composite key is empty. -/
theorem writeDatabase_c1_cex :
    Database.isInitialized c1State = true ∧
    (Database.writeDatabase c1State
        { hasError := false, errorString := "", keyAfter := [1] }).ok = true ∧
    (Database.writeDatabase c1State
        { hasError := false, errorString := "", keyAfter := [1] }).state.m_data.transformedDatabaseKey
      = c1State.m_data.transformedDatabaseKey := by
  decide

/-- C1 (amended): on success the post-write transformed key is always
non-empty; the comparison against the pre-write value is performed only
when the composite key is present but empty, in which case an unchanged or
empty post-write key makes `writeDatabase` fail with the bug-report error. -/
theorem writeDatabase_key_rotation (s : Database) (w : CodecWriter) (k : CompositeKey)
    (hk : s.m_data.key = some k) :
    ((Database.writeDatabase s w).ok = true →
        (Database.writeDatabase s w).state.m_data.transformedDatabaseKey ≠ []) ∧
    (k.isEmpty = true →
      (((Database.writeDatabase s w).ok = true →
          (Database.writeDatabase s w).state.m_data.transformedDatabaseKey
            ≠ s.m_data.transformedDatabaseKey) ∧
       (w.hasError = false →
        (w.keyAfter = [] ∨ w.keyAfter = s.m_data.transformedDatabaseKey) →
          (Database.writeDatabase s w).ok = false ∧
          (Database.writeDatabase s w).error = some DbError.keyNotTransformed))) := by
  simp only [Database.writeDatabase, Database.setEmitModified, hk]
  cases hke : k.isEmpty <;> cases hwe : w.hasError <;>
    by_cases h1 : w.keyAfter = [] <;>
    by_cases h2 : w.keyAfter = s.m_data.transformedDatabaseKey <;>
    simp_all

/-- A database state whose composite key is present but empty, with a cached
transformed key (the header-only / empty-key configuration the source's
rotation check is aimed at). -/
def c1EmptyKeyState : Database :=
  { Database.init 1 with
      m_data := { (Database.init 1).m_data with
                    key := some CompositeKey.emptyKey
                    transformedDatabaseKey := [1] } }

/-- Witness for the amended C1 theorem at a concrete empty-key state. -/
theorem writeDatabase_key_rotation_witness :
    ((Database.writeDatabase c1EmptyKeyState
        { hasError := false, errorString := "", keyAfter := [1] }).ok = true →
        (Database.writeDatabase c1EmptyKeyState
          { hasError := false, errorString := "", keyAfter := [1] }).state.m_data.transformedDatabaseKey ≠ []) ∧
    (CompositeKey.emptyKey.isEmpty = true →
      (((Database.writeDatabase c1EmptyKeyState
            { hasError := false, errorString := "", keyAfter := [1] }).ok = true →
          (Database.writeDatabase c1EmptyKeyState
            { hasError := false, errorString := "", keyAfter := [1] }).state.m_data.transformedDatabaseKey
            ≠ c1EmptyKeyState.m_data.transformedDatabaseKey) ∧
       ((({ hasError := false, errorString := "", keyAfter := [1] } : CodecWriter).hasError = false) →
        (({ hasError := false, errorString := "", keyAfter := [1] } : CodecWriter).keyAfter = [] ∨
         ({ hasError := false, errorString := "", keyAfter := [1] } : CodecWriter).keyAfter
           = c1EmptyKeyState.m_data.transformedDatabaseKey) →
          (Database.writeDatabase c1EmptyKeyState
            { hasError := false, errorString := "", keyAfter := [1] }).ok = false ∧
          (Database.writeDatabase c1EmptyKeyState
            { hasError := false, errorString := "", keyAfter := [1] }).error
            = some DbError.keyNotTransformed))) :=
  writeDatabase_key_rotation c1EmptyKeyState
    { hasError := false, errorString := "", keyAfter := [1] } CompositeKey.emptyKey rfl

/-- External collaborators of the key lifecycle. `transform` models
`CompositeKey::transform(kdf) -> bytes` (deterministic in the key and the
KDF descriptor including its seed; `none` = failure, with `transformError`
as the out-parameter message). `freshSeed` is the next cryptographically
random seed produced by `Kdf::randomizeSeed`. `kdbxVersionRequired` is
modelled from the spec: `KeePass2Writer::kdbxVersionRequired` (outside this
translation unit) yields the minimum format version the KDF requires. -/
structure KeyEnv where
  transform : CompositeKey → Kdf → Option Bytes
  transformError : String
  freshSeed : Bytes
  now : Nat
  kdbxVersionRequired : Kdf → Nat

/-- `Database::setKdf`: install the KDF and update the format version to
the minimum version it requires. -/
def Database.setKdf (s : Database) (env : KeyEnv) (kdf : Kdf) : Database :=
  let s := { s with m_data := { s.m_data with kdf := kdf } }
  { s with m_data := { s.m_data with formatVersion := env.kdbxVersionRequired kdf } }

/-- The capture step of `Database::setKey`: the old transformed key is
recorded only when the previous composite key is present and non-empty. -/
def Database.setKeyCaptureOld (s : Database) : Bytes :=
  match s.m_data.key with
  | some pk => if pk.isEmpty = false then s.m_data.transformedDatabaseKey else []
  | none => []

/-- The installation tail of `Database::setKey`: install the key; install
the transformed bytes when non-empty; optionally stamp the metadata
key-changed time (a plain metadata field write — modelled from the spec,
which records no modification side effect for it); mark modified iff the
captured bytes differ from the resulting transformed key field. -/
def Database.setKeyInstall (s : Database) (env : KeyEnv) (k : CompositeKey)
    (tk : Bytes) (updateChangedTime : Bool) (old : Bytes) : Database :=
  let s := { s with m_data := { s.m_data with key := some k } }
  let s :=
    if tk ≠ [] then
      { s with m_data := { s.m_data with transformedDatabaseKey := tk } }
    else s
  let s := if updateChangedTime then { s with m_keyChangedTime := some env.now } else s
  if old ≠ s.m_data.transformedDatabaseKey then s.markAsModified else s

/-- `Database::setKey`: set and transform a new encryption key.
A `none` key resets all key-derived state.  Otherwise: optionally
re-randomize the KDF seed; capture the old transformed key
(`setKeyCaptureOld`); either reuse the captured bytes
(`transformKey = false`) or run the KDF; then run the installation tail
(`setKeyInstall`). -/
def Database.setKey (s : Database) (env : KeyEnv) (key : Option CompositeKey)
    (updateChangedTime updateTransformSalt transformKey : Bool) : Bool × Database :=
  let s := { s with m_keyError := "" }
  match key with
  | none => (true, { s with m_data := s.m_data.resetKeys })
  | some k =>
    let s :=
      if updateTransformSalt = true then
        { s with m_data := { s.m_data with kdf := { s.m_data.kdf with seed := env.freshSeed } } }
      else s
    let oldTransformedDatabaseKey := s.setKeyCaptureOld
    let tkOpt : Option Bytes :=
      if transformKey = false then some oldTransformedDatabaseKey
      else env.transform k s.m_data.kdf
    match tkOpt with
    | none => (false, { s with m_keyError := env.transformError })
    | some tk => (true, s.setKeyInstall env k tk updateChangedTime oldTransformedDatabaseKey)

/-- `Database::changeKdf`: randomize the seed of the new KDF, transform the
current composite key under it (creating an empty key first when none is
set), then install the KDF and the transformed bytes and mark modified. -/
def Database.changeKdf (s : Database) (env : KeyEnv) (kdf : Kdf) : Bool × Database :=
  let kdf := { kdf with seed := env.freshSeed }
  let s :=
    if s.m_data.key = none then
      { s with m_data := { s.m_data with key := some CompositeKey.emptyKey } }
    else s
  match env.transform (s.m_data.key.getD CompositeKey.emptyKey) kdf with
  | none => (false, s)
  | some tk =>
    let s := s.setKdf env kdf
    let s := { s with m_data := { s.m_data with transformedDatabaseKey := tk } }
    (true, s.markAsModified)

/-- C5: after a successful `changeKdf(k)` the stored transformed key is the
transform of the (now current) composite key under `k` with its freshly
randomized seed, the new KDF is installed, the format version equals the
minimum version the new KDF requires, and the database is marked modified. -/
theorem changeKdf_spec (s : Database) (env : KeyEnv) (kdf : Kdf)
    (hok : (s.changeKdf env kdf).1 = true) :
    ∃ k, (s.changeKdf env kdf).2.m_data.key = some k ∧
      env.transform k { kdf with seed := env.freshSeed }
        = some (s.changeKdf env kdf).2.m_data.transformedDatabaseKey ∧
      (s.changeKdf env kdf).2.m_data.kdf = { kdf with seed := env.freshSeed } ∧
      (s.changeKdf env kdf).2.m_data.formatVersion
        = env.kdbxVersionRequired { kdf with seed := env.freshSeed } ∧
      (s.changeKdf env kdf).2.m_modified = true := by
  by_cases hkey : s.m_data.key = none
  · cases htr : env.transform CompositeKey.emptyKey { kdf with seed := env.freshSeed } with
    | none =>
        exfalso
        simp [Database.changeKdf, hkey, htr] at hok
    | some tk =>
        refine ⟨CompositeKey.emptyKey, ?_⟩
        simp [Database.changeKdf, hkey, htr, Database.setKdf, Database.markAsModified]
        split <;> simp
  · obtain ⟨k0, hk0⟩ := Option.ne_none_iff_exists'.mp hkey
    cases htr : env.transform k0 { kdf with seed := env.freshSeed } with
    | none =>
        exfalso
        simp [Database.changeKdf, hkey, hk0, htr] at hok
    | some tk =>
        refine ⟨k0, ?_⟩
        simp [Database.changeKdf, hkey, hk0, htr, Database.setKdf, Database.markAsModified]
        split <;> simp

/-- Environment used for the concrete key-lifecycle instances. -/
def keyEnvC : KeyEnv :=
  { transform := fun _ _ => some [7]
    transformError := ""
    freshSeed := [9]
    now := 0
    kdbxVersionRequired := fun _ => 4 }

/-- Witness for C5 at a concrete database and KDF. -/
theorem changeKdf_spec_witness :
    ∃ k, ((Database.init 1).changeKdf keyEnvC { kdfId := 2, seed := [] }).2.m_data.key = some k ∧
      keyEnvC.transform k { kdfId := 2, seed := keyEnvC.freshSeed }
        = some ((Database.init 1).changeKdf keyEnvC { kdfId := 2, seed := [] }).2.m_data.transformedDatabaseKey ∧
      ((Database.init 1).changeKdf keyEnvC { kdfId := 2, seed := [] }).2.m_data.kdf
        = { kdfId := 2, seed := keyEnvC.freshSeed } ∧
      ((Database.init 1).changeKdf keyEnvC { kdfId := 2, seed := [] }).2.m_data.formatVersion
        = keyEnvC.kdbxVersionRequired { kdfId := 2, seed := keyEnvC.freshSeed } ∧
      ((Database.init 1).changeKdf keyEnvC { kdfId := 2, seed := [] }).2.m_modified = true :=
  changeKdf_spec (Database.init 1) keyEnvC { kdfId := 2, seed := [] } rfl

/-- A clean database whose composite key is present but empty while its
cached transformed key is non-empty: produced from a fresh database by
`changeKdf` (which installs an empty composite key and a transformed key)
followed by `markAsClean`. -/
def c4PreState : Database :=
  (((Database.init 1).changeKdf keyEnvC { kdfId := 2, seed := [] }).2.markAsClean).1

/-- C4 counterexample: a successful `setKey` call with a present key on a
clean database marks the database modified even though the transformed key
bytes after the call equal the bytes before the call (the capture of the
old value is skipped because the previous composite key is empty). -/
theorem setKey_c4_cex :
    c4PreState.m_modified = false ∧
    c4PreState.m_data.transformedDatabaseKey = [7] ∧
    (c4PreState.setKey keyEnvC (some { keyId := 1, isEmpty := false }) false false false).1 = true ∧
    (c4PreState.setKey keyEnvC (some { keyId := 1, isEmpty := false }) false false false).2.m_modified = true ∧
    (c4PreState.setKey keyEnvC (some { keyId := 1, isEmpty := false }) false false false).2.m_data.transformedDatabaseKey
      = c4PreState.m_data.transformedDatabaseKey := by
  decide

/-- `markAsModified` leaves the data bag untouched. -/
theorem markAsModified_m_data (s : Database) : s.markAsModified.m_data = s.m_data := by
  simp only [Database.markAsModified]
  split <;> rfl

/-- `markAsModified` sets the modified flag. -/
theorem markAsModified_m_modified (s : Database) : s.markAsModified.m_modified = true := by
  simp only [Database.markAsModified]
  split <;> rfl

/-- The transformed key field left by the installation tail of `setKey`:
the new bytes when non-empty, the previous field otherwise. -/
theorem setKeyInstall_transformedKey (s : Database) (env : KeyEnv) (k : CompositeKey)
    (tk old : Bytes) (uc : Bool) :
    (s.setKeyInstall env k tk uc old).m_data.transformedDatabaseKey
      = if tk = [] then s.m_data.transformedDatabaseKey else tk := by
  simp only [Database.setKeyInstall]
  repeat' split
  all_goals simp_all [markAsModified_m_data]

/-- The installation tail of `setKey` on a clean database sets the modified
flag iff the resulting transformed key field differs from the captured
bytes. -/
theorem setKeyInstall_modified (s : Database) (env : KeyEnv) (k : CompositeKey)
    (tk old : Bytes) (uc : Bool) (hmod : s.m_modified = false) :
    ((s.setKeyInstall env k tk uc old).m_modified = true ↔
      (s.setKeyInstall env k tk uc old).m_data.transformedDatabaseKey ≠ old) := by
  simp only [Database.setKeyInstall]
  repeat' split
  all_goals simp_all [markAsModified_m_modified, markAsModified_m_data, hmod, ne_comm]

/-- Helper: a successful `setKey` with a present key on a clean database
sets the modified flag iff the resulting transformed key field differs from
the captured bytes (`setKeyCaptureOld`, which is empty unless the previous
composite key is present and non-empty). -/
theorem setKey_marks_modified (env : KeyEnv) (k : CompositeKey)
    (uc us tf : Bool) (s : Database) (hmod : s.m_modified = false)
    (hok : (s.setKey env (some k) uc us tf).1 = true) :
    ((s.setKey env (some k) uc us tf).2.m_modified = true ↔
      (s.setKey env (some k) uc us tf).2.m_data.transformedDatabaseKey
        ≠ s.setKeyCaptureOld) := by
  unfold Database.setKey at hok ⊢
  cases hus : us <;> cases htf : tf <;> simp only [hus, htf] at hok ⊢
  · simp only [Bool.false_eq_true, if_false, if_true, eq_self_iff_true] at hok ⊢
    exact setKeyInstall_modified _ env k _ _ uc hmod
  · simp only [Bool.false_eq_true, if_false] at hok ⊢
    cases htr : env.transform k s.m_data.kdf with
    | none => simp [htr] at hok
    | some t =>
        simp only [htr] at hok ⊢
        exact setKeyInstall_modified _ env k _ _ uc hmod
  · simp only [Bool.false_eq_true, if_false, if_true, eq_self_iff_true] at hok ⊢
    exact setKeyInstall_modified _ env k _ _ uc hmod
  · simp only [if_true] at hok ⊢
    cases htr : env.transform k { s.m_data.kdf with seed := env.freshSeed } with
    | none => simp [htr] at hok
    | some t =>
        simp only [htr] at hok ⊢
        exact setKeyInstall_modified _ env k _ _ uc hmod

/-- C4 (amended): for a successful `setKey` call with a present key on a
clean database, when the previous composite key is present and non-empty
the database is marked modified iff the transformed key bytes changed;
when the previous key is absent or empty the comparison baseline is the
empty byte array instead, so the database is marked modified iff the
resulting transformed key bytes are non-empty. -/
theorem setKey_modified_iff (s : Database) (env : KeyEnv) (k : CompositeKey)
    (uc us tf : Bool) (hmod : s.m_modified = false)
    (hok : (s.setKey env (some k) uc us tf).1 = true) :
    (∀ pk, s.m_data.key = some pk → pk.isEmpty = false →
      ((s.setKey env (some k) uc us tf).2.m_modified = true ↔
        (s.setKey env (some k) uc us tf).2.m_data.transformedDatabaseKey
          ≠ s.m_data.transformedDatabaseKey)) ∧
    ((s.m_data.key = none ∨ ∃ pk, s.m_data.key = some pk ∧ pk.isEmpty = true) →
      ((s.setKey env (some k) uc us tf).2.m_modified = true ↔
        (s.setKey env (some k) uc us tf).2.m_data.transformedDatabaseKey ≠ [])) := by
  have h := setKey_marks_modified env k uc us tf s hmod hok
  constructor
  · intro pk hpk hpke
    simpa [Database.setKeyCaptureOld, hpk, hpke] using h
  · intro hempty
    rcases hempty with h0 | ⟨pk, hpk, hpke⟩
    · simpa [Database.setKeyCaptureOld, h0] using h
    · simpa [Database.setKeyCaptureOld, hpk, hpke] using h

/-- Witness for the amended C4 theorem: a fresh database, a non-empty key,
`transformKey = true`; the call transforms to a non-empty key and marks
modified. -/
theorem setKey_modified_iff_witness :
    (∀ pk, (Database.init 1).m_data.key = some pk → pk.isEmpty = false →
      (((Database.init 1).setKey keyEnvC (some { keyId := 1, isEmpty := false }) false false true).2.m_modified = true ↔
        ((Database.init 1).setKey keyEnvC (some { keyId := 1, isEmpty := false }) false false true).2.m_data.transformedDatabaseKey
          ≠ (Database.init 1).m_data.transformedDatabaseKey)) ∧
    (((Database.init 1).m_data.key = none ∨
      ∃ pk, (Database.init 1).m_data.key = some pk ∧ pk.isEmpty = true) →
      (((Database.init 1).setKey keyEnvC (some { keyId := 1, isEmpty := false }) false false true).2.m_modified = true ↔
        ((Database.init 1).setKey keyEnvC (some { keyId := 1, isEmpty := false }) false false true).2.m_data.transformedDatabaseKey ≠ [])) :=
  setKey_modified_iff (Database.init 1) keyEnvC { keyId := 1, isEmpty := false }
    false false true rfl rfl

/-- Modelled from the spec: the container constant `kFileBlockToHashSizeBytes`
is declared in the header, outside this translation unit; "N = a container
constant, typically 1024". -/
def kFileBlockToHashSizeBytes : Nat := 1024

/-- External inputs consumed by one `open` call: existence and readability
of the file, the peeked first block, the reported file size, the hash
function, and the codec reader outcome. -/
structure OpenEnv where
  md5 : Bytes → Bytes
  fileExists : Bool
  openOk : Bool
  peekResult : Bytes
  fileSize : Nat
  readerOk : Bool
  readerErrorString : String
  canonicalPath : String

/-- Result of an `open` call. -/
structure OpenResult where
  ok : Bool
  error : Option DbError
  state : Database
  signals : List Signal

/-- Continuation of `Database::open` after the file-block hash step: hand
the file to the `KeePass2Reader`; on success bind the path, mark clean,
emit `databaseOpened`, start the watcher (30 s / 1 s cadence) and re-enable
modification signalling. -/
def Database.openReader (s : Database) (env : OpenEnv) (filePath : String) : OpenResult :=
  if env.readerOk = false then
    { ok := false, error := some (.readerError env.readerErrorString), state := s, signals := [] }
  else
    let r1 := s.setFilePath filePath
    let r2 := r1.1.markAsClean
    let s := { r2.1 with m_watcher := Watcher.started env.canonicalPath }
    let s := s.setEmitModified true
    { ok := true, error := none, state := s,
      signals := r1.2 ++ r2.2 ++ [Signal.databaseOpened] }

/-- `Database::open` (path-taking overload): require the file to exist and
be readable; suspend signalling; clear the stored hash and peek the first
`kFileBlockToHashSizeBytes` bytes — a full peek stores their MD5, a short
peek on a file of at least that size is a read error, and a short peek on a
shorter file proceeds with the hash left empty; then run the reader. -/
def Database.openDb (s : Database) (env : OpenEnv) (filePath : String) : OpenResult :=
  if env.fileExists = false then
    { ok := false, error := some (.fileNotExist filePath), state := s, signals := [] }
  else if env.openOk = false then
    { ok := false, error := some (.unableToOpen filePath), state := s, signals := [] }
  else
    let s := s.setEmitModified false
    let s := { s with m_fileBlockHash := [] }
    let fileBlockData := env.peekResult
    if fileBlockData.length ≠ kFileBlockToHashSizeBytes then
      if env.fileSize ≥ kFileBlockToHashSizeBytes then
        { ok := false, error := some .readError, state := s, signals := [] }
      else
        s.openReader env filePath
    else
      let s := { s with m_fileBlockHash := env.md5 fileBlockData }
      s.openReader env filePath

/-- `openReader` never touches the stored file-block hash. -/
theorem openReader_fileBlockHash (s : Database) (env : OpenEnv) (filePath : String) :
    (s.openReader env filePath).state.m_fileBlockHash = s.m_fileBlockHash := by
  unfold Database.openReader Database.setFilePath Database.markAsClean Database.setEmitModified
  split <;> [rfl; (split <;> rfl)]

/-- `openReader` never produces the plain read error. -/
theorem openReader_error (s : Database) (env : OpenEnv) (filePath : String) :
    (s.openReader env filePath).error ≠ some DbError.readError := by
  unfold Database.openReader
  split <;> simp

/-- C6: on an existing readable file, a full peek of the first
`kFileBlockToHashSizeBytes` bytes stores their MD5 as `fileBlockHash`; a
file shorter than that leaves the hash empty and proceeds (no read error);
and a short peek on a file of at least that size fails with the read
error. -/
theorem open_fileBlockHash (s : Database) (env : OpenEnv) (filePath : String)
    (hex : env.fileExists = true) (hopen : env.openOk = true)
    (hpeek : env.peekResult.length ≤ env.fileSize) :
    (env.peekResult.length = kFileBlockToHashSizeBytes →
      (s.openDb env filePath).state.m_fileBlockHash = env.md5 env.peekResult) ∧
    (env.fileSize < kFileBlockToHashSizeBytes →
      (s.openDb env filePath).state.m_fileBlockHash = [] ∧
      (s.openDb env filePath).error ≠ some DbError.readError) ∧
    (env.peekResult.length ≠ kFileBlockToHashSizeBytes →
      kFileBlockToHashSizeBytes ≤ env.fileSize →
      (s.openDb env filePath).ok = false ∧
      (s.openDb env filePath).error = some DbError.readError) := by
  unfold Database.openDb
  simp only [hex, hopen]
  refine ⟨?_, ?_, ?_⟩
  · intro hlen
    simp only [hlen, if_pos, if_neg]
    simp [openReader_fileBlockHash]
  · intro hsize
    have hlen : env.peekResult.length ≠ kFileBlockToHashSizeBytes := by omega
    have hsz : ¬ env.fileSize ≥ kFileBlockToHashSizeBytes := by omega
    simp only [hlen, hsz, if_neg, if_pos, if_true, if_false]
    simp [openReader_fileBlockHash, openReader_error, hlen, hsz]
  · intro hlen hsz
    simp [hlen, hsz]

/-- Concrete open environment: a 2000-byte readable file whose first block
peeks in full. -/
def openEnvC : OpenEnv :=
  { md5 := fun l => [l.length % 256]
    fileExists := true
    openOk := true
    peekResult := List.replicate kFileBlockToHashSizeBytes 0
    fileSize := 2000
    readerOk := true
    readerErrorString := ""
    canonicalPath := "/tmp/a.kdbx" }

/-- Witness for C6 at the concrete open environment. -/
theorem open_fileBlockHash_witness :
    (openEnvC.peekResult.length = kFileBlockToHashSizeBytes →
      ((Database.init 1).openDb openEnvC "/tmp/a.kdbx").state.m_fileBlockHash
        = openEnvC.md5 openEnvC.peekResult) ∧
    (openEnvC.fileSize < kFileBlockToHashSizeBytes →
      ((Database.init 1).openDb openEnvC "/tmp/a.kdbx").state.m_fileBlockHash = [] ∧
      ((Database.init 1).openDb openEnvC "/tmp/a.kdbx").error ≠ some DbError.readError) ∧
    (openEnvC.peekResult.length ≠ kFileBlockToHashSizeBytes →
      kFileBlockToHashSizeBytes ≤ openEnvC.fileSize →
      ((Database.init 1).openDb openEnvC "/tmp/a.kdbx").ok = false ∧
      ((Database.init 1).openDb openEnvC "/tmp/a.kdbx").error = some DbError.readError) :=
  open_fileBlockHash (Database.init 1) openEnvC "/tmp/a.kdbx" rfl rfl
    (by rw [show openEnvC.peekResult = List.replicate kFileBlockToHashSizeBytes 0 from rfl,
            List.length_replicate]
        norm_num [kFileBlockToHashSizeBytes, openEnvC])

/-- Modelled from the spec: `Random::instance()->randomUIntRange(64, 512)`
draws a length uniformly from the closed interval [64, 512]; the draw is
represented by reducing environment-supplied entropy into the interval. -/
def randomUIntRange (lo hi entropy : Nat) : Nat := lo + entropy % (hi - lo + 1)

/-- `QByteArray::toHex`: two hex digits per byte (digit values). -/
def toHex (bs : Bytes) : Bytes :=
  bs.foldr (fun b acc => b / 16 % 16 :: b % 16 :: acc) []

/-- The reserved `CustomData::RandomSlug` key. -/
def randomSlugKey : String := "KPXC_RANDOM_SLUG"

/-- `CustomData::set` on the metadata custom-data mapping. -/
def customDataSet (m : List (String × Bytes)) (k : String) (v : Bytes) :
    List (String × Bytes) :=
  (k, v) :: m.filter (fun p => !(p.1 == k))

/-- `CustomData::value` on the metadata custom-data mapping. -/
def customDataGet (m : List (String × Bytes)) (k : String) : Option Bytes :=
  (m.find? (fun p => p.1 == k)).map (fun p => p.2)

/-- `QString::isEmpty` on the backup path argument (`none` models a null
`QString`, which is also empty). -/
def qstringIsEmpty (q : Option String) : Bool :=
  match q with
  | none => true
  | some t => t == ""

/-- The three on-disk write strategies of `saveAs`. -/
inductive SaveAction
  | atomic
  | tempFile
  | directWrite
deriving DecidableEq, Repr

/-- External inputs consumed by one `saveAs` call: the hash function, the
on-disk observations for the external-change check, the randomness for the
padding slug, path resolution, and the I/O outcomes of the chosen write
strategy (file opens, commit, rename, restore, and the hashing stream's
digest of the first block written). -/
structure SaveEnv where
  md5 : Bytes → Bytes
  fileExists : Bool
  fileOpenOk : Bool
  readResult : Bytes
  fileSize : Nat
  entropy : Nat
  randomArray : Nat → Bytes
  targetExists : Bool
  canonicalPath : String
  absolutePath : String
  saveFileOpenOk : Bool
  hashingOpenOk : Bool
  writer : CodecWriter
  commitOk : Bool
  saveFileErrorString : String
  tempOpenOk : Bool
  renameOk : Bool
  restoreOk : Bool
  tempErrorString : String
  tempFileName : String
  dbOpenOk : Bool
  dbFileErrorString : String
  hashingResult : Bytes

/-- `Database::performSave`: take a backup when the backup path is not
null, then dispatch on the write strategy.  Every strategy routes the codec
output through `writeDatabase` on a hashing stream; on a committed write
the stream's digest becomes the new `m_fileBlockHash`.  (The backup copy,
permissions and creation-time preservation are pure file-system effects
with no modelled state; their outcomes are environment-supplied.) -/
def Database.performSave (s : Database) (env : SaveEnv) (action : SaveAction)
    (backupFilePath : Option String) : WriteResult :=
  match action with
  | .atomic =>
    if env.saveFileOpenOk = false then
      { ok := false, error := some (.saveFileError env.saveFileErrorString), state := s }
    else if env.hashingOpenOk = false then
      { ok := false, error := none, state := s }
    else
      let w := s.writeDatabase env.writer
      if w.ok = false then w
      else if env.commitOk then
        { ok := true, error := none,
          state := { w.state with m_fileBlockHash := env.hashingResult } }
      else
        { ok := false, error := some (.saveFileError env.saveFileErrorString), state := w.state }
  | .tempFile =>
    if env.tempOpenOk = false then
      { ok := false, error := some (.tempFilePlainError env.tempErrorString), state := s }
    else if env.hashingOpenOk = false then
      { ok := false, error := none, state := s }
    else
      let w := s.writeDatabase env.writer
      if w.ok = false then w
      else if env.renameOk then
        { ok := true, error := none,
          state := { w.state with m_fileBlockHash := env.hashingResult } }
      else if qstringIsEmpty backupFilePath || env.restoreOk = false then
        { ok := false, error := some (.tempFileError env.tempErrorString env.tempFileName),
          state := w.state }
      else
        { ok := false, error := some (.tempFilePlainError env.tempErrorString), state := w.state }
  | .directWrite =>
    if env.dbOpenOk = false then
      { ok := false, error := some (.dbFileError env.dbFileErrorString), state := s }
    else if env.hashingOpenOk = false then
      { ok := false, error := none, state := s }
    else
      let w := s.writeDatabase env.writer
      if w.ok = false then w
      else
        { ok := true, error := none,
          state := { w.state with m_fileBlockHash := env.hashingResult } }

/-- Result of a `saveAs` call; `performCalled` records whether the call
reached the write phase (`performSave` was invoked). -/
structure SaveResult where
  ok : Bool
  error : Option DbError
  state : Database
  signals : List Signal
  performCalled : Bool

/-- The external-change check of `saveAs`: when the target equals the bound
path, the stored hash is non-empty and `ignoreFileChangesUntilSaved` is
false, re-read the first block of the on-disk file (if it still exists);
a differing MD5 refuses with `unmergedChanges` and an asynchronous
`databaseFileChanged(true)`; a short read on a file of at least block size
is a read error.  `none` means the save may proceed. -/
def Database.saveExternalCheck (s : Database) (env : SaveEnv) (filePath : String) :
    Option (DbError × List Signal) :=
  if s.m_ignoreFileChangesUntilSaved = false ∧ s.m_fileBlockHash ≠ [] ∧
      filePath = s.m_data.filePath then
    if env.fileExists = false then none
    else if env.fileOpenOk = false then some (.unableToOpen filePath, [])
    else if env.readResult.length = kFileBlockToHashSizeBytes then
      if s.m_fileBlockHash ≠ env.md5 env.readResult then
        some (.unmergedChanges, [Signal.databaseFileChanged true])
      else none
    else if kFileBlockToHashSizeBytes ≤ env.fileSize then some (.readError, [])
    else none
  else none

/-- The write phase of `saveAs`: stop the watcher, write the random padding
slug into the reserved custom-data key, take the save mutex, resolve the
real file path, run `performSave` on the worker and finalize — on success
rebind the path, mark clean, clear `ignoreFileChangesUntilSaved` and
restart the watcher; on failure mark modified and leave the watcher
stopped.  (Owner-only permissions on a new file and the hidden attribute
are file-system effects with no modelled state.) -/
def Database.saveWritePhase (s : Database) (env : SaveEnv) (filePath : String)
    (action : SaveAction) (backupFilePath : Option String) : SaveResult :=
  let s := { s with m_watcher := Watcher.stopped }
  let slugLength := randomUIntRange 64 512 env.entropy
  let s := { s with m_customData := customDataSet s.m_customData randomSlugKey (toHex (env.randomArray slugLength)) }
  let s := { s with m_saving := true }
  let realFilePath := if env.targetExists then env.canonicalPath else env.absolutePath
  let w := s.performSave env action backupFilePath
  if w.ok then
    let r1 := w.state.setFilePath filePath
    let r2 := r1.1.markAsClean
    let s := { r2.1 with m_ignoreFileChangesUntilSaved := false }
    let s := { s with m_watcher := Watcher.started realFilePath }
    let s := { s with m_saving := false }
    { ok := true, error := none, state := s, signals := r1.2 ++ r2.2, performCalled := true }
  else
    let s := w.state.markAsModified
    let s := { s with m_saving := false }
    { ok := false, error := w.error, state := s, signals := [], performCalled := true }

/-- `Database::saveAs` (path-taking overload): refuse when a save is in
flight or the database is uninitialized; run the external-change check;
otherwise run the write phase. -/
def Database.saveAs (s : Database) (env : SaveEnv) (filePath : String)
    (action : SaveAction) (backupFilePath : Option String) : SaveResult :=
  if s.isSaving = true then
    { ok := false, error := some .busy, state := s, signals := [], performCalled := false }
  else if s.isInitialized = false then
    { ok := false, error := some .notInitialized, state := s, signals := [], performCalled := false }
  else
    match s.saveExternalCheck env filePath with
    | some es =>
        { ok := false, error := some es.1, state := s, signals := es.2, performCalled := false }
    | none => s.saveWritePhase env filePath action backupFilePath

/-- `writeDatabase` never touches the watcher. -/
theorem writeDatabase_m_watcher (s : Database) (w : CodecWriter) :
    (s.writeDatabase w).state.m_watcher = s.m_watcher := by
  simp only [Database.writeDatabase, Database.setEmitModified]
  split_ifs <;> rfl

/-- `writeDatabase` never touches the metadata custom data. -/
theorem writeDatabase_m_customData (s : Database) (w : CodecWriter) :
    (s.writeDatabase w).state.m_customData = s.m_customData := by
  simp only [Database.writeDatabase, Database.setEmitModified]
  split_ifs <;> rfl

/-- `writeDatabase` never reports the unmerged-changes error. -/
theorem writeDatabase_error_ne (s : Database) (w : CodecWriter) :
    (s.writeDatabase w).error ≠ some DbError.unmergedChanges := by
  simp only [Database.writeDatabase, Database.setEmitModified]
  split_ifs <;> simp

/-- `performSave` never touches the watcher. -/
theorem performSave_m_watcher (s : Database) (env : SaveEnv) (action : SaveAction)
    (b : Option String) :
    (s.performSave env action b).state.m_watcher = s.m_watcher := by
  cases action <;>
    simp only [Database.performSave] <;>
    split_ifs <;> simp [writeDatabase_m_watcher]

/-- `performSave` never touches the metadata custom data. -/
theorem performSave_m_customData (s : Database) (env : SaveEnv) (action : SaveAction)
    (b : Option String) :
    (s.performSave env action b).state.m_customData = s.m_customData := by
  cases action <;>
    simp only [Database.performSave] <;>
    split_ifs <;> simp [writeDatabase_m_customData]

/-- `performSave` never reports the unmerged-changes error. -/
theorem performSave_error_ne (s : Database) (env : SaveEnv) (action : SaveAction)
    (b : Option String) :
    (s.performSave env action b).error ≠ some DbError.unmergedChanges := by
  cases action <;>
    simp only [Database.performSave] <;>
    split_ifs <;> simp [writeDatabase_error_ne]

/-- `setFilePath` leaves the bound path equal to its argument. -/
theorem setFilePath_filePath (s : Database) (fp : String) :
    (s.setFilePath fp).1.m_data.filePath = fp := by
  unfold Database.setFilePath
  split_ifs with h <;> simp_all

/-- `setFilePath` emits no external file-change event. -/
theorem setFilePath_signals (s : Database) (fp : String) :
    Signal.databaseFileChanged true ∉ (s.setFilePath fp).2 := by
  unfold Database.setFilePath
  split_ifs <;> simp

/-- `setFilePath` never touches the metadata custom data. -/
theorem setFilePath_m_customData (s : Database) (fp : String) :
    (s.setFilePath fp).1.m_customData = s.m_customData := by
  unfold Database.setFilePath
  split_ifs <;> rfl

/-- `markAsClean` emits no external file-change event. -/
theorem markAsClean_signals (s : Database) :
    Signal.databaseFileChanged true ∉ s.markAsClean.2 := by
  simp only [Database.markAsClean]
  split <;> simp

/-- `markAsModified` never touches the watcher. -/
theorem markAsModified_m_watcher (s : Database) :
    s.markAsModified.m_watcher = s.m_watcher := by
  simp only [Database.markAsModified]
  split <;> rfl

/-- `markAsModified` never touches the metadata custom data. -/
theorem markAsModified_m_customData (s : Database) :
    s.markAsModified.m_customData = s.m_customData := by
  simp only [Database.markAsModified]
  split <;> rfl

/-- Reading back a custom-data key just set yields the value. -/
theorem customDataGet_set (m : List (String × Bytes)) (k : String) (v : Bytes) :
    customDataGet (customDataSet m k v) k = some v := by
  simp [customDataGet, customDataSet, List.find?]

/-- Outcome of the write phase: on a successful underlying write the path is
rebound, the database is clean, the ignore flag is cleared and the watcher
is restarted on the resolved path; on a failed write the database is marked
modified and the watcher stays stopped. -/
theorem saveWritePhase_completion (s : Database) (env : SaveEnv) (filePath : String)
    (action : SaveAction) (b : Option String) :
    ((s.saveWritePhase env filePath action b).ok = true →
      (s.saveWritePhase env filePath action b).state.m_data.filePath = filePath ∧
      (s.saveWritePhase env filePath action b).state.m_modified = false ∧
      (s.saveWritePhase env filePath action b).state.m_ignoreFileChangesUntilSaved = false ∧
      (s.saveWritePhase env filePath action b).state.m_watcher
        = Watcher.started (if env.targetExists then env.canonicalPath else env.absolutePath)) ∧
    ((s.saveWritePhase env filePath action b).ok = false →
      (s.saveWritePhase env filePath action b).state.m_modified = true ∧
      (s.saveWritePhase env filePath action b).state.m_watcher = Watcher.stopped) := by
  simp only [Database.saveWritePhase]
  split
  · constructor
    · intro _
      refine ⟨?_, ?_, rfl, rfl⟩
      · simp [Database.markAsClean, setFilePath_filePath]
      · simp [Database.markAsClean]
    · intro h
      simp at h
  · constructor
    · intro h
      simp at h
    · intro _
      refine ⟨?_, ?_⟩
      · simp [markAsModified_m_modified]
      · simp [markAsModified_m_watcher, performSave_m_watcher]

/-- The write phase always runs `performSave`, never reports the
unmerged-changes error and never emits an external file-change event. -/
theorem saveWritePhase_no_external (s : Database) (env : SaveEnv) (filePath : String)
    (action : SaveAction) (b : Option String) :
    (s.saveWritePhase env filePath action b).performCalled = true ∧
    (s.saveWritePhase env filePath action b).error ≠ some DbError.unmergedChanges ∧
    Signal.databaseFileChanged true ∉ (s.saveWritePhase env filePath action b).signals := by
  simp only [Database.saveWritePhase]
  split
  · refine ⟨rfl, by simp, ?_⟩
    simp [setFilePath_signals, markAsClean_signals]
  · refine ⟨rfl, ?_, by simp⟩
    simp [performSave_error_ne]

/-- The custom data left by the write phase: the fresh random slug is bound
to the reserved key on top of the previous mapping. -/
theorem saveWritePhase_customData (s : Database) (env : SaveEnv) (filePath : String)
    (action : SaveAction) (b : Option String) :
    (s.saveWritePhase env filePath action b).state.m_customData
      = customDataSet s.m_customData randomSlugKey
          (toHex (env.randomArray (randomUIntRange 64 512 env.entropy))) := by
  simp only [Database.saveWritePhase]
  split
  · simp [Database.markAsClean, setFilePath_m_customData, performSave_m_customData]
  · simp [markAsModified_m_customData, performSave_m_customData]

/-- C2: on a same-path save with a non-empty stored hash and the ignore
flag clear, against an existing readable file: a full re-read whose MD5
differs from the stored hash makes `saveAs` fail with the unmerged-changes
error and emit an asynchronous external file-change event; a short re-read
on a file of at least block size makes it fail with the read error. -/
theorem saveAs_external_change (s : Database) (env : SaveEnv) (filePath : String)
    (action : SaveAction) (b : Option String)
    (hsav : s.m_saving = false) (hinit : s.isInitialized = true)
    (hpath : filePath = s.m_data.filePath) (hhash : s.m_fileBlockHash ≠ [])
    (hig : s.m_ignoreFileChangesUntilSaved = false)
    (hex : env.fileExists = true) (hopen : env.fileOpenOk = true) :
    (env.readResult.length = kFileBlockToHashSizeBytes →
      env.md5 env.readResult ≠ s.m_fileBlockHash →
      (s.saveAs env filePath action b).ok = false ∧
      (s.saveAs env filePath action b).error = some DbError.unmergedChanges ∧
      Signal.databaseFileChanged true ∈ (s.saveAs env filePath action b).signals) ∧
    (env.readResult.length ≠ kFileBlockToHashSizeBytes →
      kFileBlockToHashSizeBytes ≤ env.fileSize →
      (s.saveAs env filePath action b).ok = false ∧
      (s.saveAs env filePath action b).error = some DbError.readError) := by
  constructor
  · intro hlen hmd5
    have hchk : s.saveExternalCheck env filePath
        = some (DbError.unmergedChanges, [Signal.databaseFileChanged true]) := by
      simp [Database.saveExternalCheck, hig, hhash, hpath, hex, hopen, hlen, Ne.symm hmd5]
    simp [Database.saveAs, Database.isSaving, hsav, hinit, hchk]
  · intro hlen hsz
    have hchk : s.saveExternalCheck env filePath = some (DbError.readError, []) := by
      simp [Database.saveExternalCheck, hig, hhash, hpath, hex, hopen, hlen, hsz]
    simp [Database.saveAs, Database.isSaving, hsav, hinit, hchk]

/-- C3: for a `saveAs` call that reaches the write phase, a successful
underlying write rebinds the path, marks the database clean, clears
`ignoreFileChangesUntilSaved` and restarts the watcher; a failed write
marks the database modified and leaves the watcher stopped. -/
theorem saveAs_completion (s : Database) (env : SaveEnv) (filePath : String)
    (action : SaveAction) (b : Option String)
    (hp : (s.saveAs env filePath action b).performCalled = true) :
    ((s.saveAs env filePath action b).ok = true →
      (s.saveAs env filePath action b).state.m_data.filePath = filePath ∧
      (s.saveAs env filePath action b).state.m_modified = false ∧
      (s.saveAs env filePath action b).state.m_ignoreFileChangesUntilSaved = false ∧
      (s.saveAs env filePath action b).state.m_watcher
        = Watcher.started (if env.targetExists then env.canonicalPath else env.absolutePath)) ∧
    ((s.saveAs env filePath action b).ok = false →
      (s.saveAs env filePath action b).state.m_modified = true ∧
      (s.saveAs env filePath action b).state.m_watcher = Watcher.stopped) := by
  unfold Database.saveAs at hp ⊢
  by_cases h1 : s.isSaving = true
  · rw [if_pos h1] at hp
    simp at hp
  · rw [if_neg h1] at hp ⊢
    by_cases h2 : s.isInitialized = false
    · rw [if_pos h2] at hp
      simp at hp
    · rw [if_neg h2] at hp ⊢
      cases hchk : s.saveExternalCheck env filePath with
      | some es =>
          simp only [hchk] at hp
          simp at hp
      | none =>
          simp only [hchk]
          exact saveWritePhase_completion s env filePath action b

/-- C7: every `saveAs` call that reaches the write phase binds the reserved
custom-data key to the hex encoding of a random byte array whose raw length
lies in the closed interval [64, 512]. -/
theorem saveAs_random_slug (s : Database) (env : SaveEnv) (filePath : String)
    (action : SaveAction) (b : Option String)
    (hra : ∀ n, (env.randomArray n).length = n)
    (hp : (s.saveAs env filePath action b).performCalled = true) :
    ∃ n, 64 ≤ n ∧ n ≤ 512 ∧ (env.randomArray n).length = n ∧
      customDataGet (s.saveAs env filePath action b).state.m_customData randomSlugKey
        = some (toHex (env.randomArray n)) := by
  refine ⟨randomUIntRange 64 512 env.entropy, ?_, ?_, hra _, ?_⟩
  · simp [randomUIntRange]
  · have h := Nat.mod_lt env.entropy (show 0 < 512 - 64 + 1 by norm_num)
    simp only [randomUIntRange]
    omega
  · unfold Database.saveAs at hp ⊢
    by_cases h1 : s.isSaving = true
    · rw [if_pos h1] at hp
      simp at hp
    · rw [if_neg h1] at hp ⊢
      by_cases h2 : s.isInitialized = false
      · rw [if_pos h2] at hp
        simp at hp
      · rw [if_neg h2] at hp ⊢
        cases hchk : s.saveExternalCheck env filePath with
        | some es =>
            simp only [hchk] at hp
            simp at hp
        | none =>
            simp only [hchk]
            rw [saveWritePhase_customData, customDataGet_set]

/-- C10: on a same-path save with a non-empty stored hash and the ignore
flag clear, when the file no longer exists on disk, the external-change
check is skipped entirely: the save proceeds to the write phase, and
neither the unmerged-changes error nor an external file-change event can
result. -/
theorem saveAs_missing_file_skips_check (s : Database) (env : SaveEnv) (filePath : String)
    (action : SaveAction) (b : Option String)
    (hsav : s.m_saving = false) (hinit : s.isInitialized = true)
    (hpath : filePath = s.m_data.filePath) (hhash : s.m_fileBlockHash ≠ [])
    (hig : s.m_ignoreFileChangesUntilSaved = false)
    (hnex : env.fileExists = false) :
    (s.saveAs env filePath action b).performCalled = true ∧
    (s.saveAs env filePath action b).error ≠ some DbError.unmergedChanges ∧
    Signal.databaseFileChanged true ∉ (s.saveAs env filePath action b).signals := by
  have hchk : s.saveExternalCheck env filePath = none := by
    simp [Database.saveExternalCheck, hig, hhash, hpath, hnex]
  unfold Database.saveAs
  rw [show s.isSaving = false from hsav]
  simp only [Bool.false_eq_true, if_false]
  rw [hinit]
  simp only [Bool.true_eq_false, if_false]
  simp only [hchk]
  exact saveWritePhase_no_external s env filePath action b

/-- A bound, initialized, clean database whose stored first-block hash is
`[2]`. -/
def c2State : Database :=
  { Database.init 1 with
      m_data := { (Database.init 1).m_data with
                    filePath := "/db.kdbx"
                    key := some { keyId := 1, isEmpty := false }
                    transformedDatabaseKey := [1] }
      m_fileBlockHash := [2] }

/-- Concrete save environment: the bound file exists, is readable, peeks in
full, and its first-block MD5 is `[1]` (differing from the stored `[2]`);
all write-strategy outcomes succeed. -/
def saveEnvC : SaveEnv :=
  { md5 := fun _ => [1]
    fileExists := true
    fileOpenOk := true
    readResult := List.replicate kFileBlockToHashSizeBytes 0
    fileSize := kFileBlockToHashSizeBytes
    entropy := 0
    randomArray := fun n => List.replicate n 0
    targetExists := true
    canonicalPath := "/db.kdbx"
    absolutePath := "/db.kdbx"
    saveFileOpenOk := true
    hashingOpenOk := true
    writer := { hasError := false, errorString := "", keyAfter := [5] }
    commitOk := true
    saveFileErrorString := ""
    tempOpenOk := true
    renameOk := true
    restoreOk := true
    tempErrorString := ""
    tempFileName := "/tmp/t"
    dbOpenOk := true
    dbFileErrorString := ""
    hashingResult := [9] }

/-- The same environment with the bound file deleted from disk. -/
def saveEnvC10 : SaveEnv := { saveEnvC with fileExists := false }

/-- Witness for C2 at the concrete state and environment. -/
theorem saveAs_external_change_witness :
    (saveEnvC.readResult.length = kFileBlockToHashSizeBytes →
      saveEnvC.md5 saveEnvC.readResult ≠ c2State.m_fileBlockHash →
      (c2State.saveAs saveEnvC "/db.kdbx" SaveAction.atomic none).ok = false ∧
      (c2State.saveAs saveEnvC "/db.kdbx" SaveAction.atomic none).error
        = some DbError.unmergedChanges ∧
      Signal.databaseFileChanged true
        ∈ (c2State.saveAs saveEnvC "/db.kdbx" SaveAction.atomic none).signals) ∧
    (saveEnvC.readResult.length ≠ kFileBlockToHashSizeBytes →
      kFileBlockToHashSizeBytes ≤ saveEnvC.fileSize →
      (c2State.saveAs saveEnvC "/db.kdbx" SaveAction.atomic none).ok = false ∧
      (c2State.saveAs saveEnvC "/db.kdbx" SaveAction.atomic none).error
        = some DbError.readError) :=
  saveAs_external_change c2State saveEnvC "/db.kdbx" SaveAction.atomic none
    rfl rfl rfl (by decide) rfl rfl rfl

/-- Witness for C3 at the concrete state and environment (the on-disk file
is gone, so the call reaches the write phase). -/
theorem saveAs_completion_witness :
    ((c2State.saveAs saveEnvC10 "/db.kdbx" SaveAction.atomic none).ok = true →
      (c2State.saveAs saveEnvC10 "/db.kdbx" SaveAction.atomic none).state.m_data.filePath = "/db.kdbx" ∧
      (c2State.saveAs saveEnvC10 "/db.kdbx" SaveAction.atomic none).state.m_modified = false ∧
      (c2State.saveAs saveEnvC10 "/db.kdbx" SaveAction.atomic none).state.m_ignoreFileChangesUntilSaved = false ∧
      (c2State.saveAs saveEnvC10 "/db.kdbx" SaveAction.atomic none).state.m_watcher
        = Watcher.started (if saveEnvC10.targetExists then saveEnvC10.canonicalPath else saveEnvC10.absolutePath)) ∧
    ((c2State.saveAs saveEnvC10 "/db.kdbx" SaveAction.atomic none).ok = false →
      (c2State.saveAs saveEnvC10 "/db.kdbx" SaveAction.atomic none).state.m_modified = true ∧
      (c2State.saveAs saveEnvC10 "/db.kdbx" SaveAction.atomic none).state.m_watcher = Watcher.stopped) :=
  saveAs_completion c2State saveEnvC10 "/db.kdbx" SaveAction.atomic none (by decide)

/-- Witness for C7 at the concrete state and environment. -/
theorem saveAs_random_slug_witness :
    ∃ n, 64 ≤ n ∧ n ≤ 512 ∧ (saveEnvC10.randomArray n).length = n ∧
      customDataGet
        (c2State.saveAs saveEnvC10 "/db.kdbx" SaveAction.atomic none).state.m_customData
        randomSlugKey
        = some (toHex (saveEnvC10.randomArray n)) :=
  saveAs_random_slug c2State saveEnvC10 "/db.kdbx" SaveAction.atomic none
    (by intro n
        simp [saveEnvC10, saveEnvC])
    (by decide)

/-- Witness for C10 at the concrete state and environment. -/
theorem saveAs_missing_file_skips_check_witness :
    (c2State.saveAs saveEnvC10 "/db.kdbx" SaveAction.atomic none).performCalled = true ∧
    (c2State.saveAs saveEnvC10 "/db.kdbx" SaveAction.atomic none).error
      ≠ some DbError.unmergedChanges ∧
    Signal.databaseFileChanged true
      ∉ (c2State.saveAs saveEnvC10 "/db.kdbx" SaveAction.atomic none).signals :=
  saveAs_missing_file_skips_check c2State saveEnvC10 "/db.kdbx" SaveAction.atomic none
    rfl rfl rfl (by decide) rfl rfl
